import Mathlib

/-!
Verification of the SDG 15.3.1 land-degradation analytics core.

This file gives a shallow embedding, in Lean 4, of the per-pixel and
per-series algorithms of the repository (the `component/scripts` modules
`productivity.py`, `integration.py`, `soil_organic_carbon.py`, and the
`indicators/15-3/15-3-1/scripts/run.py` variant), and proves or refutes the
frozen claims about them.

Modelling conventions:
* A pixel value of a single band is a rational number `ℚ`; a masked
  (no-data) value is `none : Option ℚ`.
* The Earth-Engine `img.where(test, v)` per-pixel update is embedded as
  `if test then v else current` on unmasked pixels, chained in program
  order (later `where` calls overwrite earlier ones).
* An Earth-Engine reducer `mean` over an empty collection produces a fully
  masked image; the embedding returns `none`.
* Collections of annual images are lists tagged with their `year`.
-/

namespace Sdg

/-! ## Per-pixel classification maps

`productivity_trajectory` (productivity.py lines 36-41): starting from the
background image `ee.Image(0)`, the z-score raster is reclassified by three
sequential `where` calls. `1.96` is the float literal of the source,
exactly the rational `49/25`. -/

def productivity_trajectory (z : ℚ) : ℤ :=
  let s0 : ℤ := 0
  let s1 : ℤ := if z < -(49/25) then 1 else s0
  let s2 : ℤ := if (49/25 : ℚ) < z then 3 else s1
  if -(49/25 : ℚ) < z ∧ z < 49/25 then 2 else s2

/-- `productivity_performance` classification tail (productivity.py lines
122-126): `ee.Image(0).where(ratio.gte(0.5), 2).where(ratio.lte(0.5), 1)`;
the second `where` uses `lte`, hence overwrites the value at `ratio = 0.5`. -/
def productivity_performance (ratio : ℚ) : ℤ :=
  let s0 : ℤ := 0
  let s1 : ℤ := if (1/2 : ℚ) ≤ ratio then 2 else s0
  if ratio ≤ (1/2 : ℚ) then 1 else s1

/-- SOC percent change (soil_organic_carbon.py lines 160-165):
`(stock[end] - stock[start]) / stock[start] * 100`. -/
def soc_percent_change (stock_start stock_end : ℚ) : ℚ :=
  (stock_end - stock_start) / stock_start * 100

/-- SOC classification (soil_organic_carbon.py lines 169-176):
`ee.Image(0).where(pc.gt(10), 3).where(pc.lt(10).And(pc.gt(-10)), 2)
.where(pc.lt(-10), 1)`. -/
def soc_class (pc : ℚ) : ℤ :=
  let s0 : ℤ := 0
  let s1 : ℤ := if (10 : ℚ) < pc then 3 else s0
  let s2 : ℤ := if pc < 10 ∧ (-10 : ℚ) < pc then 2 else s1
  if pc < -10 then 1 else s2

/-! ### Claim C1 -/

/-- C1 counterexample: the claim states that a z-score exactly equal to
`1.96` (and `-1.96`) is classified stable(2); on the code both boundary
values keep the background value `0`, which is not `2`. -/
theorem trajectory_boundary_counterexample :
    productivity_trajectory (49/25) = 0 ∧
    productivity_trajectory (-(49/25)) = 0 ∧ (0 : ℤ) ≠ 2 := by
  refine ⟨?_, ?_, by decide⟩ <;> norm_num [productivity_trajectory]

/-- C1 (amended): `z < -1.96` yields degraded(1), `z > 1.96` yields
improved(3), `-1.96 < z < 1.96` yields stable(2), and the boundary values
`z = ±1.96` keep the background value `0` (the unclassified sentinel), so
the three classes partition the reals with the two boundary points
excluded. -/
theorem trajectory_classification :
    ∀ z : ℚ, productivity_trajectory z =
      if z < -(49/25) then 1
      else if (49/25 : ℚ) < z then 3
      else if z = -(49/25) ∨ z = (49/25 : ℚ) then 0
      else 2 := by
  intro z
  by_cases h1 : z < -(49/25 : ℚ)
  · have h2 : ¬((49/25 : ℚ) < z) := by linarith
    have h3 : ¬(-(49/25 : ℚ) < z ∧ z < (49/25 : ℚ)) := by rintro ⟨ha, _⟩; linarith
    simp [productivity_trajectory, h1, h2, h3]
  · by_cases h2 : (49/25 : ℚ) < z
    · have h3 : ¬(-(49/25 : ℚ) < z ∧ z < (49/25 : ℚ)) := by rintro ⟨_, hb⟩; linarith
      simp [productivity_trajectory, h1, h2, h3]
    · by_cases h3 : z = -(49/25 : ℚ) ∨ z = (49/25 : ℚ)
      · have h4 : ¬(-(49/25 : ℚ) < z ∧ z < (49/25 : ℚ)) := by
          rcases h3 with h | h <;> rintro ⟨ha, hb⟩ <;> rw [h] at ha hb <;> linarith
        simp [productivity_trajectory, h1, h2, h3, h4]
      · push_neg at h3
        have h4 : -(49/25 : ℚ) < z ∧ z < (49/25 : ℚ) := by
          constructor
          · exact lt_of_le_of_ne (not_lt.mp h1) (Ne.symm h3.1)
          · exact lt_of_le_of_ne (not_lt.mp h2) h3.2
        simp [productivity_trajectory, h1, h2, h3.1, h3.2, h4]

/-! ### Claim C2 -/

/-- C2 counterexample: the claim states that a ratio exactly equal to `0.5`
is classified not-degraded(2); on the code the second `where` uses `lte`,
so `ratio = 0.5` is overwritten to degraded(1). -/
theorem performance_boundary_counterexample :
    productivity_performance (1/2) = 1 ∧ (1 : ℤ) ≠ 2 := by
  constructor
  · norm_num [productivity_performance]
  · decide

/-- C2 (amended): a ratio strictly greater than `0.5` is classified
not-degraded(2) and a ratio less than or equal to `0.5` is classified
degraded(1); in particular only the class values `1` and `2` are ever
produced for a pixel with a defined ratio. -/
theorem performance_classification :
    ∀ r : ℚ, productivity_performance r = (if r ≤ (1/2 : ℚ) then 1 else 2) ∧
      (productivity_performance r = 1 ∨ productivity_performance r = 2) := by
  intro r
  have h : productivity_performance r = (if r ≤ (1/2 : ℚ) then 1 else 2) := by
    simp only [productivity_performance]
    split_ifs with h1 h2 <;> first | rfl | (exfalso; linarith)
  exact ⟨h, by rw [h]; split_ifs <;> simp⟩

/-! ### Claim C4 -/

/-- C4 counterexample: the claim states that a percent change exactly equal
to `+10` or `-10` is classified stable(2); on the code all three `where`
conditions are strict, so both boundary values keep the background value
`0`. -/
theorem soc_boundary_counterexample :
    soc_class 10 = 0 ∧ soc_class (-10) = 0 ∧ (0 : ℤ) ≠ 2 := by
  refine ⟨?_, ?_, by decide⟩ <;> norm_num [soc_class]

/-- C4 (amended): a percent change strictly greater than `10` is classified
improved(3), strictly less than `-10` degraded(1), strictly between the two
bounds stable(2); a percent change exactly equal to `+10` or `-10` keeps
the background value `0` (the unclassified sentinel). -/
theorem soc_classification :
    ∀ pc : ℚ, soc_class pc =
      if (10 : ℚ) < pc then 3
      else if pc < -10 then 1
      else if pc = 10 ∨ pc = -10 then 0
      else 2 := by
  intro pc
  by_cases h1 : (10 : ℚ) < pc
  · have h2 : ¬(pc < (10 : ℚ) ∧ (-10 : ℚ) < pc) := by rintro ⟨ha, _⟩; linarith
    have h3 : ¬(pc < (-10 : ℚ)) := by linarith
    simp [soc_class, h1, h2, h3]
  · by_cases h2 : pc < (-10 : ℚ)
    · have h3 : ¬(pc < (10 : ℚ) ∧ (-10 : ℚ) < pc) := by rintro ⟨_, hb⟩; linarith
      simp [soc_class, h1, h2, h3]
    · by_cases h3 : pc = (10 : ℚ) ∨ pc = (-10 : ℚ)
      · have h4 : ¬(pc < (10 : ℚ) ∧ (-10 : ℚ) < pc) := by
          rcases h3 with h | h <;> rintro ⟨ha, hb⟩ <;> rw [h] at ha hb <;> linarith
        simp [soc_class, h1, h2, h3, h4]
      · push_neg at h3
        have h4 : pc < (10 : ℚ) ∧ (-10 : ℚ) < pc := by
          constructor
          · exact lt_of_le_of_ne (not_lt.mp h1) h3.1
          · exact lt_of_le_of_ne (not_lt.mp h2) (Ne.symm h3.2)
        simp [soc_class, h1, h2, h3.1, h3.2, h4]

/-! ## Annual integration (integration.py)

A single-pixel observation of one variable: its timestamp is abstracted to
the calendar `year` and `month` used by the `ee.Filter.calendarRange`
groupings, its pixel value is a rational. -/

structure Obs where
  year : ℕ
  month : ℕ
  value : ℚ
  deriving DecidableEq, Repr

/-- `ee.Reducer.mean` over a list of unmasked pixel values: masked (`none`)
when the collection is empty. -/
def reduce_mean (l : List ℚ) : Option ℚ :=
  if l.isEmpty then none else some (l.sum / l.length)

/-- Per-pixel mean over an image collection: masked images contribute
nothing, and the result is masked when no image is valid. -/
def collection_mean (l : List (Option ℚ)) : Option ℚ :=
  reduce_mean (l.filterMap id)

/-- `coll.filter(ee.Filter.calendarRange(year, field="year"))`. -/
def year_filter (coll : List Obs) (y : ℕ) : List Obs :=
  coll.filter (fun o => o.year == y)

/-- `coll.filter(ee.Filter.calendarRange(month, field="month"))`. -/
def month_filter (coll : List Obs) (m : ℕ) : List Obs :=
  coll.filter (fun o => o.month == m)

/-- Inner routine of `int_yearly_ndvi` (integration.py lines 239-258): the
year's observations are selected; `months` lists the month number of every
observation (one entry per observation, duplicates included, since no
distinct step is applied to `aggregate_array`); for each entry the mean of
that month's observations is computed; the annual composite is the mean of
that collection. -/
def daily_to_monthly_to_annual (coll : List Obs) (year : ℕ) : Option ℚ :=
  let ndvi_coll_ann := year_filter coll year
  let months := ndvi_coll_ann.map Obs.month
  let img_coll := months.map
    (fun m => reduce_mean ((month_filter ndvi_coll_ann m).map Obs.value))
  collection_mean img_coll

/-- An annual raster at one pixel: its `year` tag and its named bands. -/
structure YearImg where
  year : ℕ
  bands : List (String × Option ℚ)
  deriving DecidableEq, Repr

/-- `int_yearly_ndvi` (integration.py lines 236-263): one image per year of
`ee.List.sequence(start, end)`, renamed to the single band `"vi"` and
tagged with its year. -/
def int_yearly_ndvi (coll : List Obs) (s e : ℕ) : List YearImg :=
  (List.range' s (e + 1 - s)).map
    (fun y => ⟨y, [("vi", daily_to_monthly_to_annual coll y)]⟩)

/-- `int_yearly_climate` (integration.py lines 266-282): per year, a
single-level mean of the year's observations in band `"clim"`, plus a
constant `"year"` band. -/
def int_yearly_climate (coll : List Obs) (s e : ℕ) : List YearImg :=
  (List.range' s (e + 1 - s)).map
    (fun y => ⟨y, [("clim", reduce_mean ((year_filter coll y).map Obs.value)),
                   ("year", some (y : ℚ))]⟩)

/-- `annual_modis_vi` (integration.py lines 353-367): per year, a
single-level mean of the year's observations, renamed `"vi"`, plus a
constant `"year"` band. -/
def annual_modis_vi (coll : List Obs) (s e : ℕ) : List YearImg :=
  (List.range' s (e + 1 - s)).map
    (fun y => ⟨y, [("vi", reduce_mean ((year_filter coll y).map Obs.value)),
                   ("year", some (y : ℚ))]⟩)

/-- Band name selected by `ndvi_trend` (productivity.py line 289). -/
def ndvi_trend_select_band : String := "ndvi"

/-- Band name selected by `productivity_performance` on the integrated
annual series (productivity.py line 69). -/
def performance_select_band : String := "ndvi"

/-- Band name selected by `productivity_state` on the integrated annual
series (productivity.py lines 152, 158, 190, 196). -/
def state_select_band : String := "ndvi"

/-- Unmasked month mean used inside the annual integrator (the division is
the rational one; the month is always inhabited where this is used). -/
def month_mean (l : List Obs) (m : ℕ) : ℚ :=
  ((month_filter l m).map Obs.value).sum / ((month_filter l m).map Obs.value).length

lemma filterMap_eq_map_of_mem {α β : Type} {g : α → Option β} {h : α → β} :
    ∀ {l : List α}, (∀ x ∈ l, g x = some (h x)) → l.filterMap g = l.map h := by
  intro l
  induction l with
  | nil => simp
  | cons a t ih =>
    intro hall
    rw [List.filterMap_cons, hall a (by simp), List.map_cons,
      ih (fun x hx => hall x (List.mem_cons_of_mem a hx))]

lemma month_filter_self_mem {l : List Obs} {o : Obs} (h : o ∈ l) :
    o ∈ month_filter l o.month := by
  simp [month_filter, List.mem_filter, h]

lemma month_filter_of_ne {l : List Obs} {m mb : ℕ} (h : mb ≠ m) :
    month_filter (l.filter (fun x => !(x.month == m))) mb = month_filter l mb := by
  simp only [month_filter, List.filter_filter]
  refine List.filter_congr ?_
  intro x _
  by_cases hx : x.month = mb
  · simp [hx, h]
  · simp [hx]

/-- Core of claim C5: summing, over every observation of the year, the mean
of its calendar month, gives back the plain sum of all observed values
(each month mean is counted once per observation of that month). -/
lemma sum_map_month_mean : ∀ (l : List Obs),
    (l.map (fun o => month_mean l o.month)).sum = (l.map Obs.value).sum := by
  have key : ∀ (n : ℕ) (l : List Obs), l.length = n →
      (l.map (fun o => month_mean l o.month)).sum = (l.map Obs.value).sum := by
    intro n
    induction n using Nat.strong_induction_on with
    | _ n ih =>
      intro l hl
      cases l with
      | nil => simp
      | cons o t =>
        set l := o :: t with hldef
        set m := o.month with hm
        set A := l.filter (fun x => x.month == m) with hA
        set B := l.filter (fun x => !(x.month == m)) with hB
        have hperm : List.Perm (A ++ B) l := List.filter_append_perm _ l
        have hlen : A.length + B.length = l.length := by
          have := hperm.length_eq
          simpa using this
        have hoA : o ∈ A := by
          simp [hA, List.mem_filter, hldef]
        have hAne : A ≠ [] := List.ne_nil_of_mem hoA
        have hApos : 0 < A.length := List.length_pos.mpr hAne
        have hoB : o ∉ B := by
          simp [hB, List.mem_filter]
        -- the month values of month m inside l are exactly the values of A
        have hAvals : month_filter l m = A := by
          simp [month_filter, hA]
        -- sum over A: the constant month mean, counted A.length times
        have hsumA : (A.map (fun o' => month_mean l o'.month)).sum
            = (A.map Obs.value).sum := by
          have hconst : ∀ o' ∈ A, month_mean l o'.month = month_mean l m := by
            intro o' ho'
            have : o'.month = m := by
              have := (List.mem_filter.mp (hA ▸ ho')).2
              simpa using this
            rw [this]
          calc (A.map (fun o' => month_mean l o'.month)).sum
              = (A.map (fun _ => month_mean l m)).sum := by
                refine congrArg List.sum ?_
                exact List.map_congr_left hconst
            _ = A.length * month_mean l m := by
                rw [List.map_const']
                simp [List.sum_replicate, nsmul_eq_mul]
            _ = (A.map Obs.value).sum := by
                have hc : ((A.length : ℚ)) ≠ 0 := by
                  exact_mod_cast Nat.pos_iff_ne_zero.mp hApos
                rw [month_mean, hAvals]
                simp only [List.length_map]
                rw [mul_comm, div_mul_cancel₀ _ hc]
        -- sum over B: the month means over l agree with those over B,
        -- and the induction hypothesis applies to B
        have hBlt : B.length < n := by
          omega
        have hBmeans : ∀ b ∈ B, month_mean l b.month = month_mean B b.month := by
          intro b hb
          have hbm : b.month ≠ m := by
            have := (List.mem_filter.mp (hB ▸ hb)).2
            simpa using this
          rw [month_mean, month_mean, ← month_filter_of_ne hbm, hB]
        have hsumB : (B.map (fun o' => month_mean l o'.month)).sum
            = (B.map Obs.value).sum := by
          calc (B.map (fun o' => month_mean l o'.month)).sum
              = (B.map (fun o' => month_mean B o'.month)).sum := by
                refine congrArg List.sum ?_
                exact List.map_congr_left hBmeans
            _ = (B.map Obs.value).sum := ih B.length hBlt B rfl
        -- reassemble along the permutation
        have h1 : ((A ++ B).map (fun o' => month_mean l o'.month)).sum
            = (l.map (fun o' => month_mean l o'.month)).sum :=
          (hperm.map _).sum_eq
        have h2 : ((A ++ B).map Obs.value).sum = (l.map Obs.value).sum :=
          (hperm.map _).sum_eq
        rw [← h1, ← h2, List.map_append, List.map_append, List.sum_append,
          List.sum_append, hsumA, hsumB]
  intro l
  exact key l.length l rfl

/-- Claim C5, amended form: for every input series and year, the annual
composite computed by the integrator equals the single-level mean of all
the year's observations. -/
lemma daily_to_monthly_to_annual_eq_single_mean (coll : List Obs) (y : ℕ) :
    daily_to_monthly_to_annual coll y
      = reduce_mean ((year_filter coll y).map Obs.value) := by
  set l := year_filter coll y with hldef
  by_cases hl : l = []
  · simp [daily_to_monthly_to_annual, collection_mean, reduce_mean, ← hldef, hl]
  · have hall : ∀ o ∈ l,
        reduce_mean ((month_filter l o.month).map Obs.value)
          = some (month_mean l o.month) := by
      intro o ho
      have hne : (month_filter l o.month).map Obs.value ≠ [] := by
        intro hcon
        have : o ∈ month_filter l o.month := month_filter_self_mem ho
        have := List.ne_nil_of_mem this
        simp [List.map_eq_nil_iff] at hcon
        exact this hcon
      rw [reduce_mean, if_neg (by simpa [List.isEmpty_iff] using hne), month_mean]
    have hstep : (l.map Obs.month).map
          (fun m => reduce_mean ((month_filter l m).map Obs.value))
        = l.map (fun o => reduce_mean ((month_filter l o.month).map Obs.value)) := by
      rw [List.map_map]; rfl
    rw [daily_to_monthly_to_annual, collection_mean]
    simp only [← hldef, hstep]
    have hfm : (l.map (fun o =>
          reduce_mean ((month_filter l o.month).map Obs.value))).filterMap id
        = l.map (fun o => month_mean l o.month) := by
      rw [List.filterMap_map]
      exact filterMap_eq_map_of_mem (by simpa using hall)
    rw [hfm, reduce_mean, reduce_mean]
    have hlen1 : (l.map (fun o => month_mean l o.month)).length = l.length := by simp
    have hlen2 : (l.map Obs.value).length = l.length := by simp
    have hemp1 : (l.map (fun o => month_mean l o.month)).isEmpty = l.isEmpty := by
      cases l <;> simp
    have hemp2 : (l.map Obs.value).isEmpty = l.isEmpty := by
      cases l <;> simp
    rw [hemp1, hemp2, sum_map_month_mean, hlen1, hlen2]

/-- Definition following the spec words for claim C5 (refinement
comparison): a two-level mean in which each **distinct** calendar month
with at least one observation contributes exactly once to the outer mean. -/
def spec_two_level_annual_mean (coll : List Obs) (year : ℕ) : Option ℚ :=
  let obsY := year_filter coll year
  let months := (obsY.map Obs.month).dedup
  collection_mean
    (months.map (fun m => reduce_mean ((month_filter obsY m).map Obs.value)))

/-- A year with one January observation of value 0 and two February
observations of value 2: the code's outer mean counts February's monthly
mean twice. -/
def c5_series : List Obs :=
  [⟨2000, 1, 0⟩, ⟨2000, 2, 2⟩, ⟨2000, 2, 2⟩]

/-! ### Claim C5 -/

/-- C5 counterexample: on a year with one January observation (value 0) and
two February observations (value 2), the integrator's annual composite is
`4/3` (the single-level mean of the three observations), not `1` (the
unweighted mean `(0 + 2)/2` of the two distinct monthly means) as the
claim states. -/
theorem two_level_mean_counterexample :
    daily_to_monthly_to_annual c5_series 2000 = some (4/3) ∧
    spec_two_level_annual_mean c5_series 2000 = some 1 ∧
    daily_to_monthly_to_annual c5_series 2000
      ≠ spec_two_level_annual_mean c5_series 2000 := by
  have h1 : daily_to_monthly_to_annual c5_series 2000 = some (4/3) := by
    rw [daily_to_monthly_to_annual_eq_single_mean]
    have hyf : (year_filter c5_series 2000).map Obs.value = [0, 2, 2] := by decide
    rw [hyf, reduce_mean]
    norm_num
  have h2 : spec_two_level_annual_mean c5_series 2000 = some 1 := by
    have hstep : spec_two_level_annual_mean c5_series 2000
        = collection_mean [reduce_mean [0], reduce_mean [2, 2]] := by
      rfl
    have hfm : List.filterMap id [reduce_mean [0], reduce_mean [2, 2]]
        = [0, 2] := by
      norm_num [reduce_mean, List.filterMap_cons]
    rw [hstep, collection_mean, hfm, reduce_mean]
    norm_num
  refine ⟨h1, h2, ?_⟩
  rw [h1, h2]
  norm_num

/-- C5 (amended): the `months` list of `int_yearly_ndvi` has one entry per
observation (no distinct step), so each month's mean enters the outer mean
once per observation of that month, and the two-level construction
collapses exactly to the single-level mean of all the year's
observations. -/
theorem annual_composite_is_single_level_mean :
    ∀ (coll : List Obs) (y : ℕ),
      daily_to_monthly_to_annual coll y
        = reduce_mean ((year_filter coll y).map Obs.value) := by
  intro coll y
  exact daily_to_monthly_to_annual_eq_single_mean coll y

/-! ### Claim C9 -/

/-- C9: for `start ≤ end`, both annual integrators return a series with
exactly one raster tagged for each year of `[start, end]` (the year tags
are duplicate-free and range exactly over the interval), and a year with
zero observations yields a raster whose data band is masked (`none`), not
an omitted entry and not a zero fill. -/
theorem int_yearly_one_image_per_year (coll : List Obs) (s e : ℕ) (h : s ≤ e) :
    ((int_yearly_ndvi coll s e).map YearImg.year).Nodup ∧
    (∀ y : ℕ, y ∈ (int_yearly_ndvi coll s e).map YearImg.year ↔ (s ≤ y ∧ y ≤ e)) ∧
    (int_yearly_ndvi coll s e).length = e - s + 1 ∧
    (∀ img ∈ int_yearly_ndvi coll s e,
        year_filter coll img.year = [] → img.bands = [("vi", none)]) ∧
    ((int_yearly_climate coll s e).map YearImg.year).Nodup ∧
    (∀ y : ℕ, y ∈ (int_yearly_climate coll s e).map YearImg.year ↔ (s ≤ y ∧ y ≤ e)) ∧
    (int_yearly_climate coll s e).length = e - s + 1 ∧
    (∀ img ∈ int_yearly_climate coll s e,
        year_filter coll img.year = [] →
          img.bands = [("clim", none), ("year", some (img.year : ℚ))]) := by
  have hy1 : (int_yearly_ndvi coll s e).map YearImg.year = List.range' s (e + 1 - s) := by
    unfold int_yearly_ndvi
    rw [List.map_map]
    have hfun : (YearImg.year ∘ fun y =>
        (⟨y, [("vi", daily_to_monthly_to_annual coll y)]⟩ : YearImg)) = id := rfl
    rw [hfun, List.map_id]
  have hy2 : (int_yearly_climate coll s e).map YearImg.year = List.range' s (e + 1 - s) := by
    unfold int_yearly_climate
    rw [List.map_map]
    have hfun : (YearImg.year ∘ fun y =>
        (⟨y, [("clim", reduce_mean ((year_filter coll y).map Obs.value)),
              ("year", some (y : ℚ))]⟩ : YearImg)) = id := rfl
    rw [hfun, List.map_id]
  have hmem : ∀ y : ℕ, y ∈ List.range' s (e + 1 - s) ↔ (s ≤ y ∧ y ≤ e) := by
    intro y
    rw [List.mem_range'_1]
    omega
  refine ⟨?_, ?_, ?_, ?_, ?_, ?_, ?_, ?_⟩
  · rw [hy1]; (apply List.nodup_range'; norm_num)
  · intro y; rw [hy1]; exact hmem y
  · have := congrArg List.length hy1
    simp only [List.length_map, List.length_range'] at this
    omega
  · intro img himg hempty
    unfold int_yearly_ndvi at himg
    obtain ⟨y, _, rfl⟩ := List.mem_map.mp himg
    have hnone : daily_to_monthly_to_annual coll y = none := by
      simp only [daily_to_monthly_to_annual] at hempty ⊢
      simp [hempty, collection_mean, reduce_mean]
    simp [hnone]
  · rw [hy2]; (apply List.nodup_range'; norm_num)
  · intro y; rw [hy2]; exact hmem y
  · have := congrArg List.length hy2
    simp only [List.length_map, List.length_range'] at this
    omega
  · intro img himg hempty
    unfold int_yearly_climate at himg
    obtain ⟨y, _, rfl⟩ := List.mem_map.mp himg
    simp only at hempty
    simp [hempty, reduce_mean]

/-- C9 witness: the theorem applied to the empty observation series over
the years 2000-2002. -/
theorem int_yearly_one_image_per_year_witness :
    2000 ≤ 2002 ∧ (int_yearly_ndvi [] 2000 2002).length = 2002 - 2000 + 1 :=
  ⟨by decide, (int_yearly_one_image_per_year [] 2000 2002 (by decide)).2.2.1⟩

/-! ### Claim C3 -/

/-- C3: all three productivity consumers select the band named `"ndvi"`
from the integrated annual series, but every image produced by
`int_yearly_ndvi` or `annual_modis_vi` carries its index values in a band
named `"vi"` (plus, for the latter, `"year"`): the selected band name is
absent from every image of the integrator's output. -/
theorem integrated_series_lacks_selected_band :
    ndvi_trend_select_band = "ndvi" ∧
    performance_select_band = "ndvi" ∧
    state_select_band = "ndvi" ∧
    (∀ (coll : List Obs) (s e : ℕ), ∀ img ∈ int_yearly_ndvi coll s e,
      img.bands.lookup ndvi_trend_select_band = none ∧
      img.bands.lookup "vi" ≠ none) ∧
    (∀ (coll : List Obs) (s e : ℕ), ∀ img ∈ annual_modis_vi coll s e,
      img.bands.lookup ndvi_trend_select_band = none ∧
      img.bands.lookup "vi" ≠ none) := by
  refine ⟨rfl, rfl, rfl, ?_, ?_⟩
  · intro coll s e img himg
    unfold int_yearly_ndvi at himg
    obtain ⟨y, _, rfl⟩ := List.mem_map.mp himg
    constructor <;> simp [List.lookup, ndvi_trend_select_band]
  · intro coll s e img himg
    unfold annual_modis_vi at himg
    obtain ⟨y, _, rfl⟩ := List.mem_map.mp himg
    constructor <;> simp [List.lookup, ndvi_trend_select_band]

/-- C3 witness: the single image of `int_yearly_ndvi [] 2000 2000` has no
`"ndvi"` band. -/
theorem integrated_series_lacks_selected_band_witness :
    (⟨2000, [("vi", none)]⟩ : YearImg) ∈ int_yearly_ndvi [] 2000 2000 ∧
    (YearImg.bands ⟨2000, [("vi", none)]⟩).lookup ndvi_trend_select_band = none := by
  have hmem : (⟨2000, [("vi", none)]⟩ : YearImg) ∈ int_yearly_ndvi [] 2000 2000 := by
    decide
  exact ⟨hmem,
    (integrated_series_lacks_selected_band.2.2.2.1 [] 2000 2000 _ hmem).1⟩

/-! ## RESTREND (productivity.py lines 296-352, 378-419)

An annual image of one data band at one pixel: the `year` tag and the
band value (the `clim` band for the climate series, the `ndvi` band for
the vegetation series). -/

structure AnnImg where
  year : ℕ
  value : ℚ
  deriving DecidableEq, Repr

/-- `ee.Reducer.linearFit()` over (x, y) samples: ordinary least squares,
returning `(scale, offset)`. The degenerate denominators that Earth Engine
masks are embedded with the rational convention `q / 0 = 0` (irrelevant to
the join structure studied here). -/
def linearFit (pairs : List (ℚ × ℚ)) : ℚ × ℚ :=
  let n : ℚ := pairs.length
  let sx := (pairs.map Prod.fst).sum
  let sy := (pairs.map Prod.snd).sum
  let sxy := (pairs.map fun p => p.1 * p.2).sum
  let sxx := (pairs.map fun p => p.1 * p.1).sum
  let scale := (n * sxy - sx * sy) / (n * sxx - sx * sx)
  let offset := (sy - scale * sx) / n
  (scale, offset)

/-- `ndvi_climate_merge` (productivity.py lines 378-402): `ee.Join.inner`
on the `year` property — one joined element per matching
(climate, ndvi) pair, tagged with the common year. -/
def ndvi_climate_merge (climate ndvi : List AnnImg) : List (AnnImg × AnnImg) :=
  climate.flatMap (fun c =>
    (ndvi.filter (fun nimg => nimg.year == c.year)).map (fun nimg => (c, nimg)))

/-- Prediction step of `restrend` (productivity.py lines 314-337): fit
NDVI against climate over the joined pairs, then predict one NDVI image
per joined element from its climate value. -/
def predicted_yearly_ndvi (climate ndvi : List AnnImg) : List AnnImg :=
  let merged := ndvi_climate_merge climate ndvi
  let fit := linearFit (merged.map (fun p => (p.1.value, p.2.value)))
  merged.map (fun p => ⟨p.1.year, fit.2 + fit.1 * p.1.value⟩)

/-- Residual step of `restrend` (productivity.py line 341 mapping
`ndvi_residuals`, lines 404-419): the map runs over the **full** NDVI
series, and each image looks up its year's prediction with
`modeled.filter(ee.Filter.eq('year', year)).first()` — `none` embeds the
null produced when no prediction exists for that year (an evaluation
error in Earth Engine, not a dropped element). -/
def restrend_residuals (climate ndvi : List AnnImg) : List (ℕ × Option ℚ) :=
  let modeled := predicted_yearly_ndvi climate ndvi
  ndvi.map (fun img =>
    (img.year,
     (modeled.find? (fun p => p.year == img.year)).map
       (fun p => img.value - p.value)))

/-- A climate series covering only 2000 and an NDVI series covering 2000
and 2001. -/
def c6_climate : List AnnImg := [⟨2000, 100⟩]

def c6_ndvi : List AnnImg := [⟨2000, 1/2⟩, ⟨2001, 3/5⟩]

/-! ### Claim C6 -/

/-- C6 counterexample: with climate years {2000} and NDVI years
{2000, 2001}, the inner join has exactly one element, but the residual
series has an entry for each NDVI year — including 2001, which is present
in only one of the two series — so the residual series is not the inner
join of the two year sets. -/
theorem restrend_residuals_counterexample :
    (ndvi_climate_merge c6_climate c6_ndvi).length = 1 ∧
    (restrend_residuals c6_climate c6_ndvi).map Prod.fst = [2000, 2001] ∧
    c6_climate.map AnnImg.year = [2000] ∧
    (2001 : ℕ) ∉ c6_climate.map AnnImg.year := by
  refine ⟨by decide, ?_, by decide, by decide⟩
  decide

/-- C6 (amended): the residual series produced by `restrend` has exactly
one entry per year of the NDVI series (in order), regardless of the
climate series; an entry's residual value is defined precisely when its
year also appears in the climate series, and an NDVI year absent from the
climate series yields an entry with no defined prediction (a runtime
evaluation error), not an absent entry. -/
theorem restrend_residuals_follow_vi_series (climate ndvi : List AnnImg) :
    (restrend_residuals climate ndvi).map Prod.fst = ndvi.map AnnImg.year ∧
    ∀ p ∈ restrend_residuals climate ndvi,
      (p.snd.isSome ↔ p.fst ∈ climate.map AnnImg.year) := by
  constructor
  · simp only [restrend_residuals, List.map_map]
    rfl
  · intro p hp
    simp only [restrend_residuals] at hp
    obtain ⟨img, himg, rfl⟩ := List.mem_map.mp hp
    simp only [Option.isSome_map']
    rw [List.find?_isSome]
    constructor
    · rintro ⟨q, hq, hqy⟩
      simp only [predicted_yearly_ndvi] at hq
      obtain ⟨pr, hpr, rfl⟩ := List.mem_map.mp hq
      simp only [ndvi_climate_merge, List.mem_flatMap] at hpr
      obtain ⟨c, hc, hprc⟩ := hpr
      obtain ⟨nimg, hnimg, rfl⟩ := List.mem_map.mp hprc
      have hcy : c.year = img.year := by simpa using hqy
      exact List.mem_map.mpr ⟨c, hc, hcy⟩
    · intro hy
      obtain ⟨c, hc, hcy⟩ := List.mem_map.mp hy
      have hmem : (c, img) ∈ ndvi_climate_merge climate ndvi := by
        simp only [ndvi_climate_merge, List.mem_flatMap]
        exact ⟨c, hc,
          List.mem_map.mpr ⟨img, List.mem_filter.mpr ⟨himg, by simp [hcy]⟩, rfl⟩⟩
      simp only [predicted_yearly_ndvi]
      refine ⟨_, List.mem_map.mpr ⟨(c, img), hmem, rfl⟩, ?_⟩
      simp [hcy]

/-- C6 witness: the theorem applied to the concrete series `c6_climate`,
`c6_ndvi` at the residual entry for year 2001, whose prediction is
undefined. -/
theorem restrend_residuals_follow_vi_series_witness :
    ((2001 : ℕ), (none : Option ℚ)) ∈ restrend_residuals c6_climate c6_ndvi ∧
    ((none : Option ℚ).isSome ↔ (2001 : ℕ) ∈ c6_climate.map AnnImg.year) := by
  have hmem : ((2001 : ℕ), (none : Option ℚ))
      ∈ restrend_residuals c6_climate c6_ndvi := by
    decide
  exact ⟨hmem, (restrend_residuals_follow_vi_series c6_climate c6_ndvi).2 _ hmem⟩

/-! ## Trajectory method dispatch (productivity.py lines 22-41 and
run.py lines 114-136) -/

/-- Outcome of running a Python function: either a value or a raised
exception. `unboundLocal` is the `NameError` Python raises at the first
use of a local variable that no branch assigned; `raisedNameError` is an
explicitly raised `NameError` with its message. -/
inductive PyErr where
  | unboundLocal : String → PyErr
  | raisedNameError : String → PyErr
  deriving DecidableEq, Repr

/-- Marker for which trend computation the dispatch selects. -/
inductive TrendMethod where
  | ndviTrend
  | pRestrend
  | ueTrend
  deriving DecidableEq, Repr

/-- Modelled from the spec: the trajectory method names of
`pm.trajectories` in configuration order; the `component/parameter`
module is not among the analysed sources, and `run.py` line 114 hardcodes
the same four names in the same order. -/
def trajectories : List String :=
  ["ndvi_trend", "p_restrend", "s_restrend", "ue_trend"]

/-- Dispatch of `productivity_trajectory` in component/scripts
(productivity.py lines 26-33): branches exist for `trajectories[0]`,
`trajectories[1]` and `trajectories[3]` only; there is no branch for
`trajectories[2]` (s_restrend) and no `else`, so for any other method
name the local `z_score` is never assigned and its first use at line 37
raises an unbound-variable `NameError`. -/
def component_trajectory_dispatch (method : String) : Except PyErr TrendMethod :=
  if method = trajectories[0]! then .ok .ndviTrend
  else if method = trajectories[1]! then .ok .pRestrend
  else if method = trajectories[3]! then .ok .ueTrend
  else .error (.unboundLocal "z_score")

/-- Dispatch of `productivity_trajectory` in indicators/15-3
(run.py lines 118-136): explicit `raise NameError` for `trajectories[2]`
(s_restrend) and for an unrecognized method name. -/
def run_trajectory_dispatch (method : String) : Except PyErr TrendMethod :=
  if method = trajectories[0]! then .ok .ndviTrend
  else if method = trajectories[1]! then .ok .pRestrend
  else if method = trajectories[2]! then
    .error (.raisedNameError "s_restrend method not yet supported")
  else if method = trajectories[3]! then .ok .ueTrend
  else .error (.raisedNameError ("Unrecognized method \"" ++ method ++ "\""))

/-- An error is deliberate when the code raises it with a message (a
NotImplemented- or ConfigurationError-style failure); an unbound-local
`NameError` is an accident of control flow, not a dedicated error. -/
def is_deliberate_error : PyErr → Bool
  | .raisedNameError _ => true
  | .unboundLocal _ => false

/-! ### Claim C7 -/

/-- C7 counterexample: in the component/scripts variant, selecting
`s_restrend` does not fail with a NotImplemented-style error, and an
unknown name does not fail with a distinct ConfigurationError: both fall
through every branch and produce the same accidental unbound-variable
`NameError` on `z_score`. -/
theorem s_restrend_dispatch_counterexample :
    component_trajectory_dispatch "s_restrend"
      = .error (.unboundLocal "z_score") ∧
    component_trajectory_dispatch "not_a_method"
      = .error (.unboundLocal "z_score") ∧
    is_deliberate_error (.unboundLocal "z_score") = false := by
  exact ⟨rfl, rfl, rfl⟩

/-- C7 (amended): in the component/scripts variant, selecting `s_restrend`
or any method name outside {ndvi_trend, p_restrend, ue_trend} fails before
any trend computation — never a silent no-op — but with the generic
unbound-variable `NameError` on `z_score`, identical for both cases; the
run.py variant raises the explicit NameErrors "s_restrend method not yet
supported" and "Unrecognized method ..." respectively. -/
theorem trajectory_dispatch_fails_fast :
    (∀ m : String, m ∉ ["ndvi_trend", "p_restrend", "ue_trend"] →
      component_trajectory_dispatch m = .error (.unboundLocal "z_score")) ∧
    run_trajectory_dispatch "s_restrend"
      = .error (.raisedNameError "s_restrend method not yet supported") ∧
    (∀ m : String, m ∉ trajectories →
      run_trajectory_dispatch m
        = .error (.raisedNameError ("Unrecognized method \"" ++ m ++ "\""))) := by
  have e0 : trajectories[0]! = "ndvi_trend" := rfl
  have e1 : trajectories[1]! = "p_restrend" := rfl
  have e2 : trajectories[2]! = "s_restrend" := rfl
  have e3 : trajectories[3]! = "ue_trend" := rfl
  refine ⟨?_, ?_, ?_⟩
  · intro m hm
    have h0 : m ≠ "ndvi_trend" := fun h => hm (by simp [h])
    have h1 : m ≠ "p_restrend" := fun h => hm (by simp [h])
    have h3 : m ≠ "ue_trend" := fun h => hm (by simp [h])
    simp [component_trajectory_dispatch, e0, e1, e3, h0, h1, h3]
  · simp [run_trajectory_dispatch, e0, e1, e2]
  · intro m hm
    have h0 : m ≠ "ndvi_trend" := fun h => hm (by simp [h, trajectories])
    have h1 : m ≠ "p_restrend" := fun h => hm (by simp [h, trajectories])
    have h2 : m ≠ "s_restrend" := fun h => hm (by simp [h, trajectories])
    have h3 : m ≠ "ue_trend" := fun h => hm (by simp [h, trajectories])
    simp [run_trajectory_dispatch, e0, e1, e2, e3, h0, h1, h2, h3]

/-- C7 witness: the theorem applied to the unknown method name "foo". -/
theorem trajectory_dispatch_fails_fast_witness :
    ("foo" ∉ ["ndvi_trend", "p_restrend", "ue_trend"] ∧ "foo" ∉ trajectories) ∧
    component_trajectory_dispatch "foo" = .error (.unboundLocal "z_score") ∧
    run_trajectory_dispatch "foo"
      = .error (.raisedNameError ("Unrecognized method \"" ++ "foo" ++ "\"")) := by
  refine ⟨⟨by decide, by decide⟩, ?_, ?_⟩
  · exact trajectory_dispatch_fails_fast.1 "foo" (by decide)
  · exact trajectory_dispatch_fails_fast.2.2 "foo" (by decide)

/-! ## SOC land-cover transition codes (soil_organic_carbon.py) -/

/-- First year pair (soil_organic_carbon.py line 50):
`lc_transition = lc_time0.multiply(100).add(lc_time1)`. -/
def lc_transition_first (lc_time0 lc_time1 : ℤ) : ℤ :=
  lc_time0 * 100 + lc_time1

/-- Later year pairs (line 114):
`lc_transition_temp = lc_time0.multiply(10).add(lc_time1)`. -/
def lc_transition_loop_code (lc_time0 lc_time1 : ℤ) : ℤ :=
  lc_time0 * 10 + lc_time1

/-- Later year pairs (line 115): the stored transition code is overwritten
only where the land-cover class changed. -/
def lc_transition_update (prev lc_time0 lc_time1 : ℤ) : ℤ :=
  if lc_time0 ≠ lc_time1 then lc_transition_loop_code lc_time0 lc_time1 else prev

/-- Years-since-transition counter, first pair (line 53):
`ee.Image(2).where(lc_time0.neq(lc_time1), 1)`. -/
def lc_transition_time_first (lc_time0 lc_time1 : ℤ) : ℤ :=
  if lc_time0 ≠ lc_time1 then 1 else 2

/-- Years-since-transition counter, later pairs (lines 108-110). -/
def lc_transition_time_update (prev lc_time0 lc_time1 : ℤ) : ℤ :=
  if lc_time0 = lc_time1 then prev + 1 else 1

/-! ### Claim C8 -/

/-- C8: the loop pairs use the two-digit code `lc(t)*10 + lc(t+1)` and
overwrite it only where the class changed (as the claim states), but the
first year pair uses `lc(t)*100 + lc(t+1)` — e.g. classes 1 then 2 encode
as 102 for the first pair and as 12 for every later pair, although both
codes are fed to the same lookup table `pm.IPCC_lc_change_matrix`. -/
theorem soc_transition_encoding_mismatch :
    lc_transition_first 1 2 = 102 ∧
    lc_transition_loop_code 1 2 = 12 ∧
    lc_transition_first 1 2 ≠ lc_transition_loop_code 1 2 ∧
    (∀ prev lc0 lc1 : ℤ, lc0 ≠ lc1 →
      lc_transition_update prev lc0 lc1 = lc0 * 10 + lc1) ∧
    (∀ prev lc0 : ℤ, lc_transition_update prev lc0 lc0 = prev) := by
  refine ⟨by decide, by decide, by decide, ?_, ?_⟩
  · intro prev lc0 lc1 h
    simp [lc_transition_update, lc_transition_loop_code, h]
  · intro prev lc0
    simp [lc_transition_update]

/-- C8 witness: the theorem applied to a change from class 1 to class 2
over a stored code 5, and to an unchanged class 1. -/
theorem soc_transition_encoding_mismatch_witness :
    (1 : ℤ) ≠ 2 ∧ lc_transition_update 5 1 2 = 1 * 10 + 2 ∧
    lc_transition_update 5 1 1 = 5 :=
  ⟨by decide, soc_transition_encoding_mismatch.2.2.2.1 5 1 2 (by decide),
    soc_transition_encoding_mismatch.2.2.2.2 5 1⟩

/-! ## Productivity state (productivity.py lines 131-247) -/

/-- Class difference of `productivity_state` (lines 228-235):
`target_classes.subtract(baseline_classes)` then
`.where(baseline_ndvi_mean.subtract(target_ndvi_mean).abs().lte(100), 0)`. -/
def classes_change (baseline_class target_class : ℤ)
    (baseline_mean target_mean : ℚ) : ℤ :=
  if |baseline_mean - target_mean| ≤ 100 then 0
  else target_class - baseline_class

/-- Final state reclassification (lines 240-245), starting from the
`pm.int_16_min` background `-32768`. -/
def state_degradation (c : ℤ) : ℤ :=
  let s0 : ℤ := -32768
  let s1 : ℤ := if 2 ≤ c then 3 else s0
  let s2 : ℤ := if c ≤ -2 ∧ c ≠ -32768 then 1 else s1
  if c < 2 ∧ -2 < c then 2 else s2

/-- `calculate_ndvi` (integration.py lines 285-298):
`(nir - red) / (nir + red)`; a zero denominator is masked in Earth Engine
(rational convention `q / 0 = 0` here). -/
def calculate_ndvi (nir red : ℚ) : ℚ :=
  (nir - red) / (nir + red)

/-- NDVI values computed from nonnegative reflectances lie in `[-1, 1]`,
so means of NDVI values do too: attainable mean differences never
exceed 2. -/
theorem calculate_ndvi_bounded (nir red : ℚ) (h1 : 0 ≤ nir) (h2 : 0 ≤ red) :
    |calculate_ndvi nir red| ≤ 1 := by
  rw [calculate_ndvi, abs_div]
  rcases eq_or_lt_of_le (add_nonneg h1 h2) with h | h
  · rw [← h]
    norm_num
  · rw [div_le_one (by rwa [abs_of_pos h])]
    rw [abs_of_pos h]
    rw [abs_le]
    constructor <;> linarith

/-- Witness for the NDVI bound at `nir = 1`, `red = 0`. -/
theorem calculate_ndvi_bounded_witness :
    (0 : ℚ) ≤ 1 ∧ (0 : ℚ) ≤ 0 ∧ |calculate_ndvi 1 0| ≤ 1 :=
  ⟨by norm_num, le_refl 0, calculate_ndvi_bounded 1 0 (by norm_num) (le_refl 0)⟩

/-! ### Claim C10 -/

/-- C10: for all band classes and for every pair of attainable
vegetation-index means (any values bounded by 2.4, which covers NDVI in
`[-1, 1]` and EVI in `[-2.4, 2.4]`), the mean difference is at most 4.8,
hence always within the `.lte(100)` guard: the class difference is forced
to 0 at every pixel — not only for noise-level movements — and the state
class is always stable(2). -/
theorem state_epsilon_swallows_all_changes
    (bl_class tg_class : ℤ) (bl_mean tg_mean : ℚ)
    (h1 : |bl_mean| ≤ 12/5) (h2 : |tg_mean| ≤ 12/5) :
    classes_change bl_class tg_class bl_mean tg_mean = 0 ∧
    state_degradation (classes_change bl_class tg_class bl_mean tg_mean) = 2 := by
  have htri : |bl_mean - tg_mean| ≤ |bl_mean| + |tg_mean| := by
    simpa [sub_eq_add_neg, abs_neg] using abs_add bl_mean (-tg_mean)
  have h : |bl_mean - tg_mean| ≤ 100 := by linarith
  have hc : classes_change bl_class tg_class bl_mean tg_mean = 0 := by
    simp [classes_change, h]
  exact ⟨hc, by rw [hc]; decide⟩

/-- C10 witness: a maximal genuine change — baseline mean NDVI `-1` in
band 1, target mean NDVI `1` in band 10 — is still forced to class
difference 0 and classified stable(2). -/
theorem state_epsilon_swallows_all_changes_witness :
    |(-1 : ℚ)| ≤ 12/5 ∧ |(1 : ℚ)| ≤ 12/5 ∧
    classes_change 1 10 (-1) 1 = 0 ∧
    state_degradation (classes_change 1 10 (-1) 1) = 2 := by
  have h := state_epsilon_swallows_all_changes 1 10 (-1) 1
    (by rw [abs_of_nonpos] <;> norm_num) (by rw [abs_of_nonneg] <;> norm_num)
  exact ⟨by rw [abs_of_nonpos] <;> norm_num,
    by rw [abs_of_nonneg] <;> norm_num, h.1, h.2⟩

end Sdg
